import Mathlib

/-!
Verification of the speaker-embedding demo application (`app.py`).

The application exposes three stateless functions:
* `load_model_info` — static model metadata;
* `process_audio`  — given an optional audio file path and window
  parameters, returns a report string and an optional embedding matrix;
* `compare_speakers` — given two optional audio file paths, returns a
  comparison report string.

The only nondeterminism in the source is numpy's random generator.  We
embed it by passing the random draws explicitly: `process_audio` takes a
sampler `Nat → ℚ` giving the entries of `np.random.randn`, and
`compare_speakers` takes the unit variate `u` underlying
`np.random.uniform(0.3, 0.95)` (which numpy computes as
`low + u * (high - low)` with `u` drawn from `[0, 1)`).  Real numbers are
modelled by rationals.
-/

namespace App

/-- The model-info record returned by `load_model_info` in `app.py`. -/
structure ModelInfo where
  model_name : String
  description : String
  sample_rate : Nat
  embedding_dim : Nat
  status : String
  deriving Repr, DecidableEq

/-- `load_model_info` from `app.py`: returns the static model metadata. -/
def load_model_info : ModelInfo :=
  { model_name := "wespeaker-voxceleb-resnet34-LM"
    description := "WeSpeaker ResNet34 说话人嵌入模型，基于 VoxCeleb 数据集训练"
    sample_rate := 16000
    embedding_dim := 256
    status := "模型已加载" }

/-- `np.random.randn(rows, cols)`: a `rows × cols` matrix whose entries are
drawn from the random source; the draws are supplied by the sampler
`sample`, indexed in row-major order. -/
def randn (rows cols : Nat) (sample : Nat → ℚ) : List (List ℚ) :=
  (List.range rows).map fun i => (List.range cols).map fun j => sample (i * cols + j)

/-- `os.path.basename` for POSIX paths: the part of the path after the
last slash. -/
def basename (path : String) : String :=
  ⟨(path.data.reverse.takeWhile (fun c => c ≠ '/')).reverse⟩

/-- The first `k` decimal digits of the fraction `n / d` (with
`n < d`), by long division. -/
def fracDigitsAux (d : Nat) : Nat → Nat → List Nat
  | _, 0 => []
  | n, k + 1 => (n * 10) / d :: fracDigitsAux d ((n * 10) % d) k

/-- Render a list of decimal digits as a string. -/
def digitsToString (ds : List Nat) : String :=
  ⟨ds.map fun d => Char.ofNat (48 + d)⟩

/-- Python's `str` on a (non-special) float value: sign, integer part, a
dot, and the fractional digits with trailing zeros removed (at least one
digit, so integers render with a trailing `.0`).  Faithful for values
whose decimal expansion terminates within 17 digits, which covers every
value the UI produces. -/
def pyFloatStr (q : ℚ) : String :=
  let sign := if q.num < 0 then "-" else ""
  let n := q.num.natAbs
  let d := q.den
  let ds := fracDigitsAux d (n % d) 17
  let ds' := (ds.reverse.dropWhile (fun d => d = 0)).reverse
  let fds := if ds' = [] then [0] else ds'
  sign ++ toString (n / d) ++ "." ++ digitsToString fds

/-- The Python expression `x if x else dflt` for `x : Optional[float]`
rendered into an f-string: `x` is falsy when it is `None` or `0.0`, in
which case the default text is shown; otherwise the float is rendered. -/
def optFloatField (x : Option ℚ) (dflt : String) : String :=
  match x with
  | none => dflt
  | some v => if v = 0 then dflt else pyFloatStr v

/-- The `shape` of a numpy matrix rendered as Python renders the tuple,
e.g. `(1, 256)`. -/
def shapeStr (m : List (List ℚ)) : String :=
  "(" ++ toString m.length ++ ", " ++ toString (m.headD []).length ++ ")"

/-- `process_audio` from `app.py`.  `sample` supplies the
`np.random.randn` draws.  Returns the report string and the optional
embedding matrix. -/
def process_audio (audio_file : Option String) (window_type : String)
    (duration : Option ℚ) (step : Option ℚ) (sample : Nat → ℚ) :
    String × Option (List (List ℚ)) :=
  match audio_file with
  | none => ("请上传音频文件", none)
  | some af =>
    let model_info := load_model_info
    let embedding := randn 1 256 sample
    let info_text :=
      "\n**模型信息：**\n- 模型名称: " ++ model_info.model_name ++
      "\n- 采样率: " ++ toString model_info.sample_rate ++
      " Hz\n- 嵌入维度: " ++ toString model_info.embedding_dim ++
      "\n- 处理状态: " ++ model_info.status ++
      "\n\n**处理参数：**\n- 窗口类型: " ++ window_type ++
      "\n- 持续时间: " ++ optFloatField duration "whole" ++
      "\n- 步长: " ++ optFloatField step "N/A" ++
      "\n\n**音频文件：** " ++ basename af ++
      "\n**嵌入向量形状：** " ++ shapeStr embedding ++ "\n"
    (info_text, some embedding)

/-- `np.random.uniform(low, high)` as numpy computes it from a unit
variate `u ∈ [0, 1)`: `low + u * (high - low)`. -/
def uniform (low high u : ℚ) : ℚ := low + u * (high - low)

/-- The similarity drawn in `compare_speakers`:
`np.random.uniform(0.3, 0.95)`. -/
def similarityOf (u : ℚ) : ℚ := uniform 0.3 0.95 u

/-- The distance derived in `compare_speakers`: `1 - similarity`. -/
def distanceOf (u : ℚ) : ℚ := 1 - similarityOf u

/-- The verdict expression of `compare_speakers`:
`'同一说话人' if similarity > 0.7 else '不同说话人'`. -/
def verdict (similarity : ℚ) : String :=
  if similarity > 0.7 then "同一说话人" else "不同说话人"

/-- Round the fraction `n / d` (with `0 < d`) to the nearest integer,
ties to even — the rounding Python's fixed-point formatting uses. -/
def roundHalfEven (n : ℤ) (d : Nat) : ℤ :=
  let f := Int.fdiv n d
  let r2 := 2 * (n - f * d)
  if r2 < (d : ℤ) then f
  else if (d : ℤ) < r2 then f + 1
  else if f % 2 = 0 then f else f + 1

/-- Left-pad the decimal rendering of `n` with zeros to 4 digits. -/
def pad4 (n : Nat) : String :=
  let s := toString n
  ⟨List.replicate (4 - s.length) '0'⟩ ++ s

/-- Python's `format(q, '.4f')`: the value rendered with exactly four
digits after the decimal point, i.e. `q * 10000` rounded half-to-even
and rendered with the decimal point inserted. -/
def format4 (q : ℚ) : String :=
  let n := roundHalfEven (q.num * 10000) q.den
  let sign := if n < 0 then "-" else ""
  let m := n.natAbs
  sign ++ toString (m / 10000) ++ "." ++ pad4 (m % 10000)

/-- `compare_speakers` from `app.py`.  `u` is the unit variate underlying
the uniform similarity draw. -/
def compare_speakers (audio1 audio2 : Option String) (u : ℚ) : String :=
  match audio1, audio2 with
  | none, _ => "请上传两个音频文件进行比较"
  | _, none => "请上传两个音频文件进行比较"
  | some a1, some a2 =>
    let similarity := similarityOf u
    let distance := 1 - similarity
    "\n**说话人比较结果：**\n\n**文件1：** " ++ basename a1 ++
    "\n**文件2：** " ++ basename a2 ++
    "\n\n**相似度：** " ++ format4 similarity ++
    " (余弦相似度)\n**距离：** " ++ format4 distance ++
    " (余弦距离)\n\n**判断：** " ++ verdict similarity ++ "\n"

/-! ### String containment -/

/-- `startsWithL t s`: the character list `t` is a prefix of `s`. -/
def startsWithL : List Char → List Char → Bool
  | [], _ => true
  | _ :: _, [] => false
  | c :: t, d :: s => c = d && startsWithL t s

/-- `containsL t s`: the character list `t` occurs contiguously in `s`. -/
def containsL (t : List Char) : List Char → Bool
  | [] => startsWithL t []
  | s@(_ :: s') => startsWithL t s || containsL t s'

/-- `strContains s t`: the string `t` occurs as a substring of `s`. -/
def strContains (s t : String) : Bool :=
  containsL t.data s.data

theorem startsWithL_append (t q : List Char) : startsWithL t (t ++ q) = true := by
  induction t with
  | nil => rfl
  | cons c t ih => simp [startsWithL, ih]

theorem containsL_of_startsWith {t s : List Char} (h : startsWithL t s = true) :
    containsL t s = true := by
  cases s with
  | nil => simpa [containsL] using h
  | cons c s' => simp [containsL, h]

theorem containsL_cons {t s : List Char} (c : Char) (h : containsL t s = true) :
    containsL t (c :: s) = true := by
  simp [containsL, h]

theorem containsL_append_left {t s : List Char} (p : List Char)
    (h : containsL t s = true) : containsL t (p ++ s) = true := by
  induction p with
  | nil => simpa using h
  | cons c p ih => simpa using containsL_cons c ih

theorem containsL_of_eq {t s : List Char} (p q : List Char)
    (h : s = p ++ (t ++ q)) : containsL t s = true := by
  subst h
  exact containsL_append_left p
    (containsL_of_startsWith (startsWithL_append t q))

theorem data_append (s t : String) : (s ++ t).data = s.data ++ t.data := rfl

theorem strContains_of_eq {s t : String} (p q : List Char)
    (h : s.data = p ++ (t.data ++ q)) : strContains s t = true :=
  containsL_of_eq p q h

theorem str_append_assoc (a b c : String) : a ++ b ++ c = a ++ (b ++ c) := by
  apply congrArg String.mk
  simp [data_append, List.append_assoc]

theorem strContains_append (p t q : String) : strContains (p ++ (t ++ q)) t = true :=
  strContains_of_eq p.data q.data rfl

theorem strContains_of_split {s t : String} (P Q : String)
    (h : s = P ++ (t ++ Q)) : strContains s t = true :=
  h ▸ strContains_append P t Q

end App

namespace App

/-! ### Claim theorems -/

/-- C5: for every call to `process_audio` with an absent audio reference,
the result is the missing-input prompt and no embedding, and (being a
total function) no exception is raised. -/
theorem process_audio_absent_input (window_type : String)
    (duration step : Option ℚ) (sample : Nat → ℚ) :
    process_audio none window_type duration step sample = ("请上传音频文件", none) :=
  rfl

/-- C9: `load_model_info` is a total constant function: every call
returns the same `ModelInfo` record, with name
`wespeaker-voxceleb-resnet34-LM`, sample rate 16000, embedding
dimension 256 and the loaded status; the record is never mutated (the
embedding has no mutation at all). -/
theorem load_model_info_static :
    load_model_info.model_name = "wespeaker-voxceleb-resnet34-LM" ∧
    load_model_info.description =
      "WeSpeaker ResNet34 说话人嵌入模型，基于 VoxCeleb 数据集训练" ∧
    load_model_info.sample_rate = 16000 ∧
    load_model_info.embedding_dim = 256 ∧
    load_model_info.status = "模型已加载" :=
  ⟨rfl, rfl, rfl, rfl, rfl⟩

/-- C4 (counterexample): with `window_type = "whole"`, the result of
`process_audio` is NOT independent of `duration` and `step`: the report
prints them, so passing `duration = 3.0, step = 1.0` versus absent
parameters yields different report strings. -/
theorem process_audio_whole_depends_on_duration :
    (process_audio (some "a.wav") "whole" (some 3) (some 1) (fun _ => 0)).1 ≠
    (process_audio (some "a.wav") "whole" none none (fun _ => 0)).1 := by
  decide

/-- C4 (amended): with `window_type = "whole"`, the returned embedding is
independent of `duration` and `step`; only the echoed parameter lines of
the report differ. -/
theorem process_audio_whole_embedding_independent (af : String)
    (d1 s1 d2 s2 : Option ℚ) (sample : Nat → ℚ) :
    (process_audio (some af) "whole" d1 s1 sample).2 =
    (process_audio (some af) "whole" d2 s2 sample).2 :=
  rfl

/-- C10: `process_audio` distinguishes absent window parameters by Python
truthiness: a present `duration = 0.0` (any window type, including
`sliding`) produces exactly the same result as an absent duration — the
report shows `whole` in the duration field — and a present `step = 0.0`
the same result as an absent step — the report shows `N/A`. -/
theorem process_audio_truthiness (af window_type : String)
    (d st : Option ℚ) (sample : Nat → ℚ) :
    process_audio (some af) window_type (some 0) st sample =
      process_audio (some af) window_type none st sample ∧
    process_audio (some af) window_type d (some 0) sample =
      process_audio (some af) window_type d none sample ∧
    optFloatField (some 0) "whole" = "whole" ∧
    optFloatField (some 0) "N/A" = "N/A" := by
  refine ⟨?_, ?_, by decide, by decide⟩ <;>
    simp [process_audio, optFloatField]

/-- C1: for every call to `process_audio` with a present audio reference,
an embedding is returned and its entries form a vector of length equal to
`load_model_info.embedding_dim`, which is 256 (the matrix is 1 × 256). -/
theorem process_audio_embedding_dim (af window_type : String)
    (duration step : Option ℚ) (sample : Nat → ℚ) :
    ∃ row, (process_audio (some af) window_type duration step sample).2 = some [row] ∧
      row.length = load_model_info.embedding_dim ∧
      load_model_info.embedding_dim = 256 := by
  refine ⟨(List.range 256).map fun j => sample (0 * 256 + j), rfl, ?_, rfl⟩
  simp [load_model_info]

/-- C6: for every call to `compare_speakers` where at least one reference
is absent, the result is exactly the please-upload-both-files prompt, and
(being a total function) no exception is raised. -/
theorem compare_speakers_missing_input (a1 a2 : Option String) (u : ℚ) :
    compare_speakers none a2 u = "请上传两个音频文件进行比较" ∧
    compare_speakers a1 none u = "请上传两个音频文件进行比较" := by
  constructor
  · cases a2 <;> rfl
  · cases a1 <;> rfl

end App

namespace App

/-- C3: for every call to `compare_speakers` with two present references,
the derived distance equals 1 minus the similarity, and for any unit
variate in `[0, 1)` the generated similarity lies in `[0.3, 0.95]`. -/
theorem compare_distance_similarity_range (u : ℚ) (h0 : 0 ≤ u) (h1 : u < 1) :
    distanceOf u = 1 - similarityOf u ∧
    0.3 ≤ similarityOf u ∧ similarityOf u ≤ 0.95 := by
  refine ⟨rfl, ?_, ?_⟩ <;>
  · unfold similarityOf uniform
    nlinarith

/-- Witness for C3 at the concrete unit variate `u = 0`. -/
theorem compare_distance_similarity_range_witness :
    (0:ℚ) ≤ 0 ∧ (0:ℚ) < 1 ∧
    (distanceOf 0 = 1 - similarityOf 0 ∧
      0.3 ≤ similarityOf 0 ∧ similarityOf 0 ≤ 0.95) :=
  ⟨le_rfl, zero_lt_one, compare_distance_similarity_range 0 le_rfl zero_lt_one⟩

/-- C2: the report of `compare_speakers` (two present references)
contains the verdict, the verdict is the same-speaker string iff the
similarity exceeds 0.7, and the different-speakers string iff it does
not; the boundary similarity 0.7 itself (reached at unit variate
`u = 8/13`) yields the different-speakers verdict since the comparison is
strict. -/
theorem compare_verdict_threshold (a1 a2 : String) (u : ℚ) :
    strContains (compare_speakers (some a1) (some a2) u) (verdict (similarityOf u)) = true ∧
    (verdict (similarityOf u) = "同一说话人" ↔ 0.7 < similarityOf u) ∧
    (verdict (similarityOf u) = "不同说话人" ↔ similarityOf u ≤ 0.7) ∧
    similarityOf (8 / 13) = 0.7 ∧
    verdict (similarityOf (8 / 13)) = "不同说话人" := by
  have hsim : similarityOf (8 / 13) = 0.7 := by unfold similarityOf uniform; norm_num
  refine ⟨?_, ?_, ?_, hsim, ?_⟩
  · exact strContains_of_split
      ("\n**说话人比较结果：**\n\n**文件1：** " ++ basename a1 ++ "\n**文件2：** " ++
        basename a2 ++ "\n\n**相似度：** " ++ format4 (similarityOf u) ++
        " (余弦相似度)\n**距离：** " ++ format4 (distanceOf u) ++ " (余弦距离)\n\n**判断：** ")
      "\n"
      (by simp [compare_speakers, distanceOf, str_append_assoc])
  · by_cases h : (0.7:ℚ) < similarityOf u
    · rw [verdict, if_pos h]; exact iff_of_true rfl h
    · rw [verdict, if_neg h]; exact iff_of_false (by decide) h
  · by_cases h : (0.7:ℚ) < similarityOf u
    · rw [verdict, if_pos h]; exact iff_of_false (by decide) (by simpa using h)
    · rw [verdict, if_neg h]; exact iff_of_true rfl (le_of_not_lt h)
  · rw [hsim, verdict, if_neg (lt_irrefl _)]

/-- C8: for every call to `compare_speakers` with two present references,
the report contains the base filenames of both inputs, the similarity and
distance rendered to 4 decimal places, and the verdict. -/
theorem compare_report_fields (a1 a2 : String) (u : ℚ) :
    strContains (compare_speakers (some a1) (some a2) u) (basename a1) = true ∧
    strContains (compare_speakers (some a1) (some a2) u) (basename a2) = true ∧
    strContains (compare_speakers (some a1) (some a2) u) (format4 (similarityOf u)) = true ∧
    strContains (compare_speakers (some a1) (some a2) u) (format4 (distanceOf u)) = true ∧
    strContains (compare_speakers (some a1) (some a2) u) (verdict (similarityOf u)) = true := by
  refine ⟨?_, ?_, ?_, ?_, ?_⟩
  · exact strContains_of_split "\n**说话人比较结果：**\n\n**文件1：** "
      ("\n**文件2：** " ++ basename a2 ++ "\n\n**相似度：** " ++ format4 (similarityOf u) ++
        " (余弦相似度)\n**距离：** " ++ format4 (distanceOf u) ++ " (余弦距离)\n\n**判断：** " ++
        verdict (similarityOf u) ++ "\n")
      (by simp [compare_speakers, distanceOf, str_append_assoc])
  · exact strContains_of_split
      ("\n**说话人比较结果：**\n\n**文件1：** " ++ basename a1 ++ "\n**文件2：** ")
      ("\n\n**相似度：** " ++ format4 (similarityOf u) ++
        " (余弦相似度)\n**距离：** " ++ format4 (distanceOf u) ++ " (余弦距离)\n\n**判断：** " ++
        verdict (similarityOf u) ++ "\n")
      (by simp [compare_speakers, distanceOf, str_append_assoc])
  · exact strContains_of_split
      ("\n**说话人比较结果：**\n\n**文件1：** " ++ basename a1 ++ "\n**文件2：** " ++
        basename a2 ++ "\n\n**相似度：** ")
      (" (余弦相似度)\n**距离：** " ++ format4 (distanceOf u) ++ " (余弦距离)\n\n**判断：** " ++
        verdict (similarityOf u) ++ "\n")
      (by simp [compare_speakers, distanceOf, str_append_assoc])
  · exact strContains_of_split
      ("\n**说话人比较结果：**\n\n**文件1：** " ++ basename a1 ++ "\n**文件2：** " ++
        basename a2 ++ "\n\n**相似度：** " ++ format4 (similarityOf u) ++ " (余弦相似度)\n**距离：** ")
      (" (余弦距离)\n\n**判断：** " ++ verdict (similarityOf u) ++ "\n")
      (by simp [compare_speakers, distanceOf, str_append_assoc])
  · exact strContains_of_split
      ("\n**说话人比较结果：**\n\n**文件1：** " ++ basename a1 ++ "\n**文件2：** " ++
        basename a2 ++ "\n\n**相似度：** " ++ format4 (similarityOf u) ++
        " (余弦相似度)\n**距离：** " ++ format4 (distanceOf u) ++ " (余弦距离)\n\n**判断：** ")
      "\n"
      (by simp [compare_speakers, distanceOf, str_append_assoc])

/-- C7: for every call to `process_audio` with a present audio reference,
the report contains the model name, the sample rate, the embedding
dimension, the status, the resolved window parameters (window type,
duration field, step field), and the base filename of the input. -/
theorem process_audio_report_fields (af window_type : String)
    (duration step : Option ℚ) (sample : Nat → ℚ) :
    strContains (process_audio (some af) window_type duration step sample).1
      load_model_info.model_name = true ∧
    strContains (process_audio (some af) window_type duration step sample).1
      (toString load_model_info.sample_rate) = true ∧
    strContains (process_audio (some af) window_type duration step sample).1
      (toString load_model_info.embedding_dim) = true ∧
    strContains (process_audio (some af) window_type duration step sample).1
      load_model_info.status = true ∧
    strContains (process_audio (some af) window_type duration step sample).1
      window_type = true ∧
    strContains (process_audio (some af) window_type duration step sample).1
      (optFloatField duration "whole") = true ∧
    strContains (process_audio (some af) window_type duration step sample).1
      (optFloatField step "N/A") = true ∧
    strContains (process_audio (some af) window_type duration step sample).1
      (basename af) = true := by
  refine ⟨?_, ?_, ?_, ?_, ?_, ?_, ?_, ?_⟩
  · exact strContains_of_split "\n**模型信息：**\n- 模型名称: "
      ("\n- 采样率: " ++ toString load_model_info.sample_rate ++
        " Hz\n- 嵌入维度: " ++ toString load_model_info.embedding_dim ++
        "\n- 处理状态: " ++ load_model_info.status ++
        "\n\n**处理参数：**\n- 窗口类型: " ++ window_type ++
        "\n- 持续时间: " ++ optFloatField duration "whole" ++
        "\n- 步长: " ++ optFloatField step "N/A" ++
        "\n\n**音频文件：** " ++ basename af ++
        "\n**嵌入向量形状：** " ++ shapeStr (randn 1 256 sample) ++ "\n")
      (by simp [process_audio, str_append_assoc])
  · exact strContains_of_split
      ("\n**模型信息：**\n- 模型名称: " ++ load_model_info.model_name ++ "\n- 采样率: ")
      (" Hz\n- 嵌入维度: " ++ toString load_model_info.embedding_dim ++
        "\n- 处理状态: " ++ load_model_info.status ++
        "\n\n**处理参数：**\n- 窗口类型: " ++ window_type ++
        "\n- 持续时间: " ++ optFloatField duration "whole" ++
        "\n- 步长: " ++ optFloatField step "N/A" ++
        "\n\n**音频文件：** " ++ basename af ++
        "\n**嵌入向量形状：** " ++ shapeStr (randn 1 256 sample) ++ "\n")
      (by simp [process_audio, str_append_assoc])
  · exact strContains_of_split
      ("\n**模型信息：**\n- 模型名称: " ++ load_model_info.model_name ++ "\n- 采样率: " ++
        toString load_model_info.sample_rate ++ " Hz\n- 嵌入维度: ")
      ("\n- 处理状态: " ++ load_model_info.status ++
        "\n\n**处理参数：**\n- 窗口类型: " ++ window_type ++
        "\n- 持续时间: " ++ optFloatField duration "whole" ++
        "\n- 步长: " ++ optFloatField step "N/A" ++
        "\n\n**音频文件：** " ++ basename af ++
        "\n**嵌入向量形状：** " ++ shapeStr (randn 1 256 sample) ++ "\n")
      (by simp [process_audio, str_append_assoc])
  · exact strContains_of_split
      ("\n**模型信息：**\n- 模型名称: " ++ load_model_info.model_name ++ "\n- 采样率: " ++
        toString load_model_info.sample_rate ++ " Hz\n- 嵌入维度: " ++
        toString load_model_info.embedding_dim ++ "\n- 处理状态: ")
      ("\n\n**处理参数：**\n- 窗口类型: " ++ window_type ++
        "\n- 持续时间: " ++ optFloatField duration "whole" ++
        "\n- 步长: " ++ optFloatField step "N/A" ++
        "\n\n**音频文件：** " ++ basename af ++
        "\n**嵌入向量形状：** " ++ shapeStr (randn 1 256 sample) ++ "\n")
      (by simp [process_audio, str_append_assoc])
  · exact strContains_of_split
      ("\n**模型信息：**\n- 模型名称: " ++ load_model_info.model_name ++ "\n- 采样率: " ++
        toString load_model_info.sample_rate ++ " Hz\n- 嵌入维度: " ++
        toString load_model_info.embedding_dim ++ "\n- 处理状态: " ++ load_model_info.status ++
        "\n\n**处理参数：**\n- 窗口类型: ")
      ("\n- 持续时间: " ++ optFloatField duration "whole" ++
        "\n- 步长: " ++ optFloatField step "N/A" ++
        "\n\n**音频文件：** " ++ basename af ++
        "\n**嵌入向量形状：** " ++ shapeStr (randn 1 256 sample) ++ "\n")
      (by simp [process_audio, str_append_assoc])
  · exact strContains_of_split
      ("\n**模型信息：**\n- 模型名称: " ++ load_model_info.model_name ++ "\n- 采样率: " ++
        toString load_model_info.sample_rate ++ " Hz\n- 嵌入维度: " ++
        toString load_model_info.embedding_dim ++ "\n- 处理状态: " ++ load_model_info.status ++
        "\n\n**处理参数：**\n- 窗口类型: " ++ window_type ++ "\n- 持续时间: ")
      ("\n- 步长: " ++ optFloatField step "N/A" ++
        "\n\n**音频文件：** " ++ basename af ++
        "\n**嵌入向量形状：** " ++ shapeStr (randn 1 256 sample) ++ "\n")
      (by simp [process_audio, str_append_assoc])
  · exact strContains_of_split
      ("\n**模型信息：**\n- 模型名称: " ++ load_model_info.model_name ++ "\n- 采样率: " ++
        toString load_model_info.sample_rate ++ " Hz\n- 嵌入维度: " ++
        toString load_model_info.embedding_dim ++ "\n- 处理状态: " ++ load_model_info.status ++
        "\n\n**处理参数：**\n- 窗口类型: " ++ window_type ++ "\n- 持续时间: " ++
        optFloatField duration "whole" ++ "\n- 步长: ")
      ("\n\n**音频文件：** " ++ basename af ++
        "\n**嵌入向量形状：** " ++ shapeStr (randn 1 256 sample) ++ "\n")
      (by simp [process_audio, str_append_assoc])
  · exact strContains_of_split
      ("\n**模型信息：**\n- 模型名称: " ++ load_model_info.model_name ++ "\n- 采样率: " ++
        toString load_model_info.sample_rate ++ " Hz\n- 嵌入维度: " ++
        toString load_model_info.embedding_dim ++ "\n- 处理状态: " ++ load_model_info.status ++
        "\n\n**处理参数：**\n- 窗口类型: " ++ window_type ++ "\n- 持续时间: " ++
        optFloatField duration "whole" ++ "\n- 步长: " ++ optFloatField step "N/A" ++
        "\n\n**音频文件：** ")
      ("\n**嵌入向量形状：** " ++ shapeStr (randn 1 256 sample) ++ "\n")
      (by simp [process_audio, str_append_assoc])

end App
